import Mathlib

/-!
Shallow embedding of the data pipeline of `app.py` (citygas induction
dashboard): loading and cleaning of the monthly meter spreadsheet, the
per-row derived metrics, the December-anchored yearly stock aggregation,
the sales-data reconciliation and the session-level control flow.
Numeric cells are modelled over the rationals; the non-finite results of
pandas float division by zero (NaN, infinity) are modelled as `none`.
-/

/- ===================== Period string cleaning and parsing =====================
   app.py lines 38-41:
     df[Korean period col] = astype(str).str.strip().str.replace(".0 at end", "")
     df[Date] = pd.to_datetime(..., format = percent-Y percent-m, errors = coerce)
     df = df.dropna(subset=[Date])
-/

/-- Python default `str.strip` whitespace characters (the ones that can occur
in a spreadsheet cell rendered through `astype(str)`). -/
def isSpaceChar (c : Char) : Bool :=
  c == ' ' || c == '\t' || c == '\n' || c == '\r' || c == '\x0b' || c == '\x0c'

/-- `str.strip()` on a character list: drop whitespace at both ends. -/
def pyStrip (l : List Char) : List Char :=
  ((l.dropWhile isSpaceChar).reverse.dropWhile isSpaceChar).reverse

/-- `str.replace(regex dot-zero-at-end, "")`: remove one trailing `.0`. -/
def dropDot0 (l : List Char) : List Char :=
  match l.reverse with
  | '0' :: '.' :: rest => rest.reverse
  | _ => l

def isDigitC (c : Char) : Bool := 48 ≤ c.toNat && c.toNat ≤ 57

def digitsToNat (l : List Char) : Nat :=
  l.foldl (fun a c => a * 10 + (c.toNat - 48)) 0

/-- `strptime` with format `percent-Y percent-m`: exactly four digits of year,
then a month of either two digits `01`..`12` or a single digit `1`..`9`;
anything else (e.g. a `Total` label row) fails, giving `NaT`. -/
def parseYYYYMMList (l : List Char) : Option (Nat × Nat) :=
  if l.all isDigitC then
    if l.length = 6 then
      let y := digitsToNat (l.take 4)
      let m := digitsToNat (l.drop 4)
      if 1 ≤ m ∧ m ≤ 12 then some (y, m) else none
    else if l.length = 5 then
      let y := digitsToNat (l.take 4)
      let m := digitsToNat (l.drop 4)
      if 1 ≤ m then some (y, m) else none
    else none
  else none

/-- The full period-cell pipeline of lines 39-40: strip whitespace, remove a
trailing `.0` artifact, parse as `YYYYMM`; `none` models `NaT`. -/
def parsePeriod (s : String) : Option (Nat × Nat) :=
  parseYYYYMMList (dropDot0 (pyStrip s.data))

/- ===================== Rows and numeric cleaning ===================== -/

/-- One row of the primary spreadsheet as read (after `astype(str)` on the
period cell).  A numeric cell is `some q` when `pd.to_numeric` (after the
comma strip of line 35) parses it to the number `q`, and `none` when the cell
is absent/NaN or unparseable (or the whole column is absent). -/
structure RawMeterRow where
  period : String
  region : String
  usage_type : String
  total_cell : Option ℚ
  gas_cell : Option ℚ
  usage_cell : Option ℚ
deriving Repr, DecidableEq

/-- The primary spreadsheet: which expected columns are present
(line 33-34 and line 38 check membership in `df.columns`), plus the rows. -/
structure RawTable where
  hasPeriod : Bool
  hasTotal : Bool
  hasGas : Bool
  hasUsage : Bool
  rows : List RawMeterRow
deriving Repr, DecidableEq

/-- Line 36: `pd.to_numeric(..., errors='coerce').fillna(0)` — an absent or
unparseable value inside a numeric column degrades to 0. -/
def cleanCell (c : Option ℚ) : ℚ := c.getD 0

/-- A loaded row of the working DataFrame: parsed `Date` (year, month),
labels, and the cleaned numeric columns.  The derived columns
(`Induction_Est_Count`, `Induction_Conversion_Rate`, `Year`) are recomputed
by the functions below, which agree pointwise with the stored columns. -/
structure MeterRow where
  date : Nat × Nat
  region : String
  usage_type : String
  total : ℚ
  gas : ℚ
  usage : ℚ
deriving Repr, DecidableEq

/-- Line 49: the `Year` column, derived from the parsed `Date`. -/
def rowYear (r : MeterRow) : Nat := r.date.1

def toMeterRow (r : RawMeterRow) (ym : Nat × Nat) : MeterRow :=
  { date := ym, region := r.region, usage_type := r.usage_type,
    total := cleanCell r.total_cell, gas := cleanCell r.gas_cell,
    usage := cleanCell r.usage_cell }

/-- Line 45: `Induction_Est_Count = total billed meters - gas range connected`.
Not clamped: negative when the connected count exceeds the billed count. -/
def inductionEst (r : MeterRow) : ℚ := r.total - r.gas

/-- Line 46: the per-row conversion rate, with the explicit zero-denominator
guard of the lambda (`if total > 0 ... else 0`). -/
def convRate (r : MeterRow) : ℚ :=
  if r.total > 0 then inductionEst r / r.total * 100 else 0

/-- Modelled from the spec: the per-connected-household-usage derivation
(monthly usage / connected count if the count is positive, else 0) of
design sections 3 and 4.3 is not present in `src/app.py`; it is embedded
here from the words of the specification. -/
def perHouseholdUsage (r : MeterRow) : ℚ :=
  if r.gas > 0 then r.usage / r.gas else 0

/- ===================== The load function =====================
   `load_data_final_v22`, lines 27-51, after a successful fetch.
   It contains no `st.warning` call at all, so the surfaced warning list is
   empty on every path; if the period column is absent, lines 38-41 are
   skipped, no `Date` column is created, and line 49 (`df['Date'].dt.year`)
   raises an uncaught `KeyError`, modelled as `Except.error`. -/

structure LoadedTable where
  rows : List MeterRow
  hasInduction : Bool
  warnings : List String
deriving Repr, DecidableEq

def loadTable (t : RawTable) : Except String LoadedTable :=
  if t.hasPeriod then
    Except.ok
      { rows := t.rows.filterMap (fun r => (parsePeriod r.period).map (toMeterRow r)),
        hasInduction := t.hasTotal && t.hasGas,
        warnings := [] }
  else Except.error "KeyError: Date"

/- ===================== Sums, filters, aggregations ===================== -/

def sumBy {α : Type} (f : α → ℚ) (l : List α) : ℚ := (l.map f).sum

/-- Pandas float division: a zero denominator never raises an error, it
produces NaN (for 0/0) or a signed infinity (otherwise); any such non-finite
result is modelled as `none`. -/
def pandasDiv (a b : ℚ) : Option ℚ := if b = 0 then none else some (a / b)

/-- Lexicographic order on (year, month) dates, `a ≤ b`. -/
def dateLE (a b : Nat × Nat) : Bool :=
  Nat.blt a.1 b.1 || (a.1 == b.1 && Nat.ble a.2 b.2)

/-- The global sidebar filter of lines 158-163: date range, region
multiselect, usage-type multiselect, applied before every aggregation. -/
structure SidebarFilter where
  startDate : Nat × Nat
  endDate : Nat × Nat
  regions : List String
  types : List String
deriving Repr, DecidableEq

def applyFilter (f : SidebarFilter) (rows : List MeterRow) : List MeterRow :=
  rows.filter (fun r =>
    dateLE f.startDate r.date && dateLE r.date f.endDate &&
    f.regions.contains r.region && f.types.contains r.usage_type)

/-- Lines 179 and 302: `df_dec = df[df['Date'].dt.month == 12]`. -/
def decRows (rows : List MeterRow) : List MeterRow :=
  rows.filter (fun r => r.date.2 == 12)

/-- The year-`y` group of `df_dec.groupby('Year')` (lines 182 and 303). -/
def decYearRows (rows : List MeterRow) (y : Nat) : List MeterRow :=
  (decRows rows).filter (fun r => rowYear r == y)

/-- Lines 183 and 305: yearly conversion rate, an UNGUARDED pandas division
of the summed December induction estimate by the summed December total. -/
def yearConvRate (rows : List MeterRow) (y : Nat) : Option ℚ :=
  (pandasDiv (sumBy inductionEst (decYearRows rows y))
             (sumBy (fun r => r.total) (decYearRows rows y))).map (fun q => q * 100)

/-- One row of `df_year_stock` / `df_summary` without the loss column:
the three December-anchored sums and the recomputed rate. -/
def yearStockSummary (rows : List MeterRow) (y : Nat) : ℚ × ℚ × ℚ × Option ℚ :=
  (sumBy (fun r => r.total) (decYearRows rows y),
   sumBy (fun r => r.gas) (decYearRows rows y),
   sumBy inductionEst (decYearRows rows y),
   yearConvRate rows y)

/-- Lines 184 and 308: annual estimated loss =
December induction estimate times the user scalar times 12. -/
def annualLoss (rows : List MeterRow) (y : Nat) (u : ℚ) : ℚ :=
  sumBy inductionEst (decYearRows rows y) * u * 12

/-- Line 422 (and line 221): loss revenue = loss volume times unit price. -/
def lossRevenue (loss price : ℚ) : ℚ := loss * price

/-- Line 276: `df.groupby('Date')` group of a given month. -/
def monthRows (rows : List MeterRow) (d : Nat × Nat) : List MeterRow :=
  rows.filter (fun r => r.date == d)

/-- Line 277: monthly conversion rate, an UNGUARDED pandas division. -/
def monthConvRate (rows : List MeterRow) (d : Nat × Nat) : Option ℚ :=
  (pandasDiv (sumBy inductionEst (monthRows rows d))
             (sumBy (fun r => r.total) (monthRows rows d))).map (fun q => q * 100)

/-- Rows of the year-`y` slice `df[df['Year'] == sel_year]`. -/
def yearRows (rows : List MeterRow) (y : Nat) : List MeterRow :=
  rows.filter (fun r => rowYear r == y)

/-- Line 487: `df[df['Year'] == sel_year]['Date'].max().month`.  Every row of
the year-`y` slice carries a date whose year component is `y` (the `Year`
column is derived from `Date`), so the month of the lexicographically maximal
date of the slice is the maximal month of the slice. -/
def lastMonthOfYear (rows : List MeterRow) (y : Nat) : Nat :=
  ((yearRows rows y).map (fun r => r.date.2)).foldl max 0

/-- Lines 485-488: the district drill-down row selection — December rows of
the selected year, falling back to the rows of the latest month present in
that year when the December selection is empty. -/
def guStockRows (rows : List MeterRow) (y : Nat) : List MeterRow :=
  let dec := rows.filter (fun r => rowYear r == y && r.date.2 == 12)
  if dec.isEmpty then
    rows.filter (fun r => rowYear r == y && r.date.2 == lastMonthOfYear rows y)
  else dec

/-- The district-`g` group of `groupby('시군구')` at line 485/488. -/
def guRows (rows : List MeterRow) (y : Nat) (g : String) : List MeterRow :=
  (guStockRows rows y).filter (fun r => r.region == g)

/-- Line 490: district conversion rate, an UNGUARDED pandas division. -/
def guConvRate (rows : List MeterRow) (y : Nat) (g : String) : Option ℚ :=
  (pandasDiv (sumBy inductionEst (guRows rows y g))
             (sumBy (fun r => r.total) (guRows rows y g))).map (fun q => q * 100)

/-- The district table `df_gu_stock`: one summed row per distinct district
of the selected row set. -/
def districtStock (rows : List MeterRow) (y : Nat) : List (String × ℚ × ℚ × ℚ) :=
  ((guStockRows rows y).map (fun r => r.region)).dedup.map (fun g =>
    (g, sumBy (fun r => r.total) (guRows rows y g),
        sumBy (fun r => r.gas) (guRows rows y g),
        sumBy inductionEst (guRows rows y g)))

/-- Line 520: the region slice `df[df['시군구'] == sel_region]`. -/
def regionRows (rows : List MeterRow) (g : String) : List MeterRow :=
  rows.filter (fun r => r.region == g)

/-- Line 522: regional yearly conversion rate — the December-anchored yearly
rate of the region slice, again an UNGUARDED pandas division. -/
def regionYearConvRate (rows : List MeterRow) (g : String) (y : Nat) : Option ℚ :=
  yearConvRate (regionRows rows g) y

/-- Modelled from the words of the specification only (the alternative that
design section 3 rules out): the yearly rate as the arithmetic mean of the
monthly conversion rates of the year.  Used solely to show the code does NOT
compute this. -/
def monthRateQ (rows : List MeterRow) (d : Nat × Nat) : ℚ :=
  if sumBy (fun r => r.total) (monthRows rows d) > 0 then
    sumBy inductionEst (monthRows rows d) / sumBy (fun r => r.total) (monthRows rows d) * 100
  else 0

def meanOfMonthlyRates (rows : List MeterRow) (y : Nat) : ℚ :=
  let ms := ((yearRows rows y).map (fun r => r.date)).dedup
  if ms.isEmpty then 0 else (ms.map (monthRateQ rows)).sum / ms.length

/- ===================== Sales data (load_sales_data_final_v22) =====================
   Lines 53-90: category columns in thousands of cubic meters; a category
   column absent from the sheet is set to 0 table-wide (line 80); present
   cells are cleaned like the meter cells (lines 77-78); both category sums
   are scaled by 1000 (lines 83-84). -/

/-- One row of the sales sheet: the year key (already through
`to_numeric(...).fillna(0).astype(int)`, line 66) and the category cells.
A category absent from `cells` models a column absent from the sheet;
`some none` models a present but unparseable/NaN cell. -/
structure SalesRow where
  year : Int
  cells : List (String × Option ℚ)
deriving Repr, DecidableEq

/-- Line 70: the fixed list of household categories. -/
def household_cols : List String := ["취사용", "개별난방용", "중앙난방용", "자가열전용"]

/-- Line 71: the fixed list of non-household categories. -/
def other_cols : List String :=
  ["일반용", "업무난방용", "냉방용", "산업용", "수송용(CNG)", "수송용(BIO)",
   "열병합용", "연료전지용", "열전용설비용", "주한미군"]

/-- Lines 75-80: the numeric value of a category column in a row — the
parsed value when the column is present and the cell parses, 0 when the cell
is unparseable (`fillna(0)`), and 0 when the column is absent (`df[col] = 0`). -/
def colValue (r : SalesRow) (c : String) : ℚ :=
  match r.cells.lookup c with
  | some (some q) => q
  | some none => 0
  | none => 0

/-- Line 83: household sales total, scaled from thousands of cubic meters. -/
def householdSalesTotal (r : SalesRow) : ℚ :=
  ((household_cols.map (colValue r)).sum) * 1000

/-- Line 84: other-categories sales total, scaled likewise. -/
def otherSalesTotal (r : SalesRow) : ℚ :=
  ((other_cols.map (colValue r)).sum) * 1000

/-- Line 85: grand total = household total + other total. -/
def totalSales (r : SalesRow) : ℚ := householdSalesTotal r + otherSalesTotal r

/-- The year-`y` group sums of `df_sales_raw.groupby('Year')` (line 312). -/
def salesYearHousehold (srows : List SalesRow) (y : Int) : ℚ :=
  sumBy householdSalesTotal (srows.filter (fun s => s.year == y))

def salesYearTotal (srows : List SalesRow) (y : Int) : ℚ :=
  sumBy totalSales (srows.filter (fun s => s.year == y))

/- ===================== Yearly merge (lines 302-327) ===================== -/

/-- The distinct `Year` keys of `df_dec.groupby('Year')` (line 303). -/
def stockYears (rows : List MeterRow) : List Nat :=
  ((decRows rows).map rowYear).dedup

/-- One row of the merged `df_year` table (lines 302-327). -/
structure YearRow where
  year : Nat
  total : ℚ
  gas : ℚ
  induction : ℚ
  convRate : Option ℚ
  annualLoss : ℚ
  householdSales : ℚ
  totalSalesVol : ℚ
  potentialHousehold : ℚ
  lossShareHousehold : ℚ
  potentialTotal : ℚ
  lossShareTotal : ℚ
deriving Repr, DecidableEq

/-- Lines 325 and 327: loss share, guarded — 0 unless the denominator is
strictly positive. -/
def lossShare (loss pot : ℚ) : ℚ := if pot > 0 then loss / pot * 100 else 0

/-- The sales columns a stock year receives after the left join of line 316
and the fill of lines 317-322: the grouped sums when the sales data is
non-empty and contains the year; otherwise 0 (either `fillna(0)` on the NaN
of a failed join, or the direct assignment when the sales table is empty). -/
def mergedSales (srows : List SalesRow) (y : Nat) : ℚ × ℚ :=
  if srows.isEmpty then (0, 0)
  else if (srows.map (fun s => s.year)).contains (y : Int) then
    (salesYearHousehold srows (y : Int), salesYearTotal srows (y : Int))
  else (0, 0)

def mkYearRow (rows : List MeterRow) (srows : List SalesRow) (u : ℚ) (y : Nat) : YearRow :=
  let g := decYearRows rows y
  let ind := sumBy inductionEst g
  let loss := ind * u * 12
  let hs := (mergedSales srows y).1
  let ts := (mergedSales srows y).2
  { year := y,
    total := sumBy (fun r => r.total) g,
    gas := sumBy (fun r => r.gas) g,
    induction := ind,
    convRate := yearConvRate rows y,
    annualLoss := loss,
    householdSales := hs,
    totalSalesVol := ts,
    potentialHousehold := hs + loss,
    lossShareHousehold := lossShare loss (hs + loss),
    potentialTotal := ts + loss,
    lossShareTotal := lossShare loss (ts + loss) }

/-- The merged yearly table `df_year`: one row per stock year, sales columns
left-joined by year. -/
def mergedYearTable (rows : List MeterRow) (srows : List SalesRow) (u : ℚ) : List YearRow :=
  (stockYears rows).map (mkYearRow rows srows u)

/- ===================== Session control flow =====================
   Lines 110-127: both loaders return an empty frame on a fetch failure;
   an empty primary frame shows an error and stops (lines 113-115), an empty
   sales frame only shows a warning (line 127) and the annual view renders
   with the sales columns set to 0 (lines 320-322). -/

inductive SessionOutcome where
  | stopped (msg : String)
  | rendered (salesWarning : Bool) (yearTable : List YearRow)
deriving Repr, DecidableEq

/-- The top-level session skeleton over the two fetch results (`none` models
a failed fetch, which each loader turns into an empty frame). -/
def runSession (gasFetch : Option (List MeterRow)) (salesFetch : Option (List SalesRow))
    (u : ℚ) : SessionOutcome :=
  let dfRaw := gasFetch.getD []
  let dfSales := salesFetch.getD []
  if dfRaw.isEmpty then
    SessionOutcome.stopped "Failed to load basic data. Please try again later."
  else
    SessionOutcome.rendered dfSales.isEmpty (mergedYearTable dfRaw dfSales u)

/- ===================== Concrete example data ===================== -/

/-- The example row of the spec (design section 8): period 201501, region
A구, type 단독, total 1000, gas-range 950, usage 4750. -/
def exR : MeterRow := ⟨(2015, 1), "A구", "단독", 1000, 950, 4750⟩

/-- A year with a November row and a December row whose monthly rates differ
from the December ratio-of-sums (rates 50 percent and 10 percent). -/
def c1rows : List MeterRow :=
  [⟨(2015, 11), "A", "단독", 100, 50, 0⟩, ⟨(2015, 12), "A", "단독", 100, 90, 0⟩]

/-- A December row whose counts are all zero: a zero aggregate denominator. -/
def z4 : MeterRow := ⟨(2024, 12), "A", "단독", 0, 0, 0⟩

/-- A year truncated before December: rows only for October and November. -/
def c10rows : List MeterRow :=
  [⟨(2024, 11), "A", "단독", 10, 8, 0⟩, ⟨(2024, 10), "B", "단독", 20, 15, 0⟩]

/-- A sales row carrying only the cooking category, 1234 thousand m3. -/
def s6 : SalesRow := ⟨2024, [("취사용", some 1234)]⟩

/-- A single December meter row for the session examples. -/
def m9 : MeterRow := ⟨(2015, 12), "A", "단독", 100, 90, 0⟩

/-- A raw table whose gas-range column is absent (`hasGas = false`). -/
def t8 : RawTable := ⟨true, true, false, true, [⟨"201501", "A", "단독", some 1, some 1, some 1⟩]⟩

/-- The table `t8` loads to: one dated row, no induction columns, no warnings. -/
def l8 : LoadedTable := ⟨[⟨(2015, 1), "A", "단독", 1, 1, 1⟩], false, []⟩

/-- A raw table with a dated row and a `Total` footer row. -/
def t7 : RawTable :=
  ⟨true, true, true, true,
   [⟨"201512", "A", "단독", some 100, some 90, some 10⟩,
    ⟨"Total", "A", "단독", some 999, some 999, some 999⟩]⟩

/-- The table `t7` loads to: the footer row is dropped. -/
def l7 : LoadedTable := ⟨[⟨(2015, 12), "A", "단독", 100, 90, 10⟩], true, []⟩

/-- A filter wide enough to keep the example rows. -/
def f0 : SidebarFilter := ⟨(2010, 1), (2030, 12), ["A"], ["단독"]⟩

/-- `c1rows` plus an extra non-December row: same December rows as `c1rows`. -/
def w1 : List MeterRow := c1rows ++ [⟨(2015, 3), "A", "단독", 77, 60, 0⟩]

/- ===================== Helper lemmas ===================== -/

theorem foldl_max_eq_or_mem (l : List Nat) (a : Nat) :
    l.foldl max a = a ∨ l.foldl max a ∈ l := by
  induction l generalizing a with
  | nil => exact Or.inl rfl
  | cons x xs ih =>
    rcases ih (max a x) with h | h
    · rcases max_choice a x with hm | hm
      · exact Or.inl (by rw [List.foldl_cons, h, hm])
      · exact Or.inr (by rw [List.foldl_cons, h, hm]; exact List.mem_cons_self x xs)
    · exact Or.inr (List.mem_cons_of_mem x h)

theorem acc_le_foldl_max (l : List Nat) (a : Nat) : a ≤ l.foldl max a := by
  induction l generalizing a with
  | nil => exact le_refl a
  | cons x xs ih => exact le_trans (le_max_left a x) (ih (max a x))

theorem le_foldl_max (l : List Nat) (a : Nat) : ∀ x ∈ l, x ≤ l.foldl max a := by
  induction l generalizing a with
  | nil => intro x hx; cases hx
  | cons y ys ih =>
    intro x hx
    rcases List.mem_cons.mp hx with hxy | hx
    · rw [hxy, List.foldl_cons]
      exact le_trans (le_max_right a y) (acc_le_foldl_max ys (max a y))
    · rw [List.foldl_cons]
      exact ih (max a y) x hx

theorem sumBy_total_filterMap (rs : List RawMeterRow) :
    sumBy (fun r => r.total) (rs.filterMap (fun r => (parsePeriod r.period).map (toMeterRow r)))
      = sumBy (fun r => cleanCell r.total_cell)
          (rs.filter (fun r => (parsePeriod r.period).isSome)) := by
  induction rs with
  | nil => rfl
  | cons r rs ih =>
    cases h : parsePeriod r.period with
    | none => simpa [sumBy, List.filterMap_cons, List.filter_cons, h] using ih
    | some ym =>
      simpa [sumBy, List.filterMap_cons, List.filter_cons, h, toMeterRow] using ih

/- ===================== Claim theorems ===================== -/

/-- C1: the yearly stock summary (sums of total billed meters, gas-range
connected count and estimated induction count, and the recomputed rate)
depends only on the December rows of the actively filtered selection — never
on the other eleven months — and when the summed December total is nonzero
the yearly conversion rate is exactly summed-induction / summed-total times
100, which differs from the mean of the monthly rates (shown on `c1rows`);
the December-anchored total also differs there from the all-months sum. -/
theorem C1_yearly_stock_december_anchored :
    (∀ (f : SidebarFilter) (rows rows' : List MeterRow) (y : Nat),
        decRows (applyFilter f rows) = decRows (applyFilter f rows') →
        yearStockSummary (applyFilter f rows) y = yearStockSummary (applyFilter f rows') y)
  ∧ (∀ (rows : List MeterRow) (y : Nat),
        sumBy (fun r => r.total) (decYearRows rows y) ≠ 0 →
        yearConvRate rows y =
          some (sumBy inductionEst (decYearRows rows y) /
                sumBy (fun r => r.total) (decYearRows rows y) * 100))
  ∧ yearConvRate c1rows 2015 ≠ some (meanOfMonthlyRates c1rows 2015)
  ∧ sumBy (fun r => r.total) (decYearRows c1rows 2015) ≠
      sumBy (fun r => r.total) (yearRows c1rows 2015) := by
  refine ⟨?_, ?_, ?_, ?_⟩
  · intro f rows rows' y h
    simp only [yearStockSummary, yearConvRate, decYearRows, h]
  · intro rows y h
    simp [yearConvRate, pandasDiv, h]
  · with_unfolding_all decide
  · with_unfolding_all decide

/-- C1 witness: the December-row invariance applied to `w1` (which has an
extra March row) versus `c1rows`, and the ratio-of-sums formula at
`c1rows`, year 2015. -/
theorem C1_yearly_stock_december_anchored_witness :
    yearStockSummary (applyFilter f0 w1) 2015 = yearStockSummary (applyFilter f0 c1rows) 2015
  ∧ yearConvRate c1rows 2015 =
      some (sumBy inductionEst (decYearRows c1rows 2015) /
            sumBy (fun r => r.total) (decYearRows c1rows 2015) * 100) :=
  ⟨C1_yearly_stock_december_anchored.1 f0 w1 c1rows 2015 (by with_unfolding_all rfl),
   C1_yearly_stock_december_anchored.2.1 c1rows 2015 (by with_unfolding_all decide)⟩

/-- C2: per-row derivations — estimated induction count is total minus
gas-range count (unclamped, negative when the count exceeds the total), the
conversion rate is (T − G)/T × 100 when T > 0 and 0 otherwise, the
per-connected-household usage (modelled from the spec, absent from
src/app.py) is U/G when G > 0 and 0 otherwise, and induction + G = T. -/
theorem C2_per_row_derived_metrics :
    ∀ (d : Nat × Nat) (reg ty : String) (t g uq : ℚ),
      inductionEst ⟨d, reg, ty, t, g, uq⟩ = t - g
    ∧ (t > 0 → convRate ⟨d, reg, ty, t, g, uq⟩ = (t - g) / t * 100)
    ∧ (¬ t > 0 → convRate ⟨d, reg, ty, t, g, uq⟩ = 0)
    ∧ (g > t → inductionEst ⟨d, reg, ty, t, g, uq⟩ < 0)
    ∧ (g > 0 → perHouseholdUsage ⟨d, reg, ty, t, g, uq⟩ = uq / g)
    ∧ (¬ g > 0 → perHouseholdUsage ⟨d, reg, ty, t, g, uq⟩ = 0)
    ∧ inductionEst ⟨d, reg, ty, t, g, uq⟩ + g = t := by
  intro d reg ty t g uq
  refine ⟨rfl, ?_, ?_, ?_, ?_, ?_, ?_⟩
  · intro h; simp [convRate, inductionEst, h]
  · intro h; simp [convRate, h]
  · intro h; simpa [inductionEst, sub_neg] using h
  · intro h; simp [perHouseholdUsage, h]
  · intro h; simp [perHouseholdUsage, h]
  · simp [inductionEst]

/-- C2 witness: the spec example row — T = 1000, G = 950, U = 4750 gives
induction 50, rate 5 percent, per-household usage 5, and the identity. -/
theorem C2_per_row_derived_metrics_witness :
    inductionEst exR = 50 ∧ convRate exR = 5 ∧ perHouseholdUsage exR = 5
  ∧ inductionEst exR + 950 = 1000 := by
  have h := C2_per_row_derived_metrics (2015, 1) "A구" "단독" 1000 950 4750
  exact ⟨h.1.trans (by norm_num),
         (h.2.1 (by norm_num)).trans (by norm_num),
         (h.2.2.2.2.1 (by norm_num)).trans (by norm_num),
         h.2.2.2.2.2.2⟩

/-- C3: every merged year row carries annual loss = December-anchored
induction estimate × the single user scalar × 12; the loss is linear in the
scalar (doubling it doubles every year); loss revenue is loss × unit price. -/
theorem C3_annual_loss_linear :
    ∀ (rows : List MeterRow) (srows : List SalesRow) (u p : ℚ) (y : Nat),
      (∀ yr, yr ∈ mergedYearTable rows srows u →
          yr.annualLoss = sumBy inductionEst (decYearRows rows yr.year) * u * 12
        ∧ yr.annualLoss = yr.induction * u * 12)
    ∧ annualLoss rows y (2 * u) = 2 * annualLoss rows y u
    ∧ lossRevenue (annualLoss rows y u) p
        = sumBy inductionEst (decYearRows rows y) * u * 12 * p := by
  intro rows srows u p y
  refine ⟨?_, ?_, ?_⟩
  · intro yr hyr
    rcases List.mem_map.mp hyr with ⟨y', _, rfl⟩
    exact ⟨rfl, rfl⟩
  · unfold annualLoss; ring
  · rfl

/-- C3 witness: the table membership hypothesis discharged on `c1rows` with
an empty sales set, scalar 5 and price 950, plus doubling at scalar 5. -/
theorem C3_annual_loss_linear_witness :
    ((mkYearRow c1rows [] 5 2015).annualLoss
        = sumBy inductionEst (decYearRows c1rows 2015) * 5 * 12
      ∧ (mkYearRow c1rows [] 5 2015).annualLoss
        = (mkYearRow c1rows [] 5 2015).induction * 5 * 12)
  ∧ annualLoss c1rows 2015 (2 * 5) = 2 * annualLoss c1rows 2015 5 :=
  ⟨by
    have hs : stockYears c1rows = [2015] := by with_unfolding_all rfl
    have hmem : mkYearRow c1rows [] 5 2015 ∈ mergedYearTable c1rows [] 5 := by
      unfold mergedYearTable
      rw [hs]
      simp
    exact (C3_annual_loss_linear c1rows [] 5 950 2015).1 (mkYearRow c1rows [] 5 2015) hmem,
   (C3_annual_loss_linear c1rows [] 5 950 2015).2.1⟩

/-- C4 counterexample: the claim says every derived ratio yields 0 on a zero
denominator, but the yearly aggregate conversion rate of lines 183 and 305
divides unguarded — on a December row set whose summed total is 0 it
produces a non-finite float (NaN, modelled `none`), not the value 0. -/
theorem C4_counterexample_unguarded_aggregate_rate :
    sumBy (fun r => r.total) (decYearRows [z4] 2024) = 0
  ∧ yearConvRate [z4] 2024 = none
  ∧ yearConvRate [z4] 2024 ≠ some 0 := by
  refine ⟨by with_unfolding_all rfl, by with_unfolding_all rfl, by with_unfolding_all decide⟩

/-- C4 amended: the per-row conversion rate and the two loss shares define a
non-positive denominator as 0, and no ratio computation raises an error; but
the yearly, monthly, district and regional aggregate conversion rates divide
unguarded, producing a non-finite value (`none`), not 0, on a zero
denominator. -/
theorem C4_amended_ratio_conventions :
    (∀ r : MeterRow, r.total = 0 → convRate r = 0)
  ∧ (∀ (rows : List MeterRow) (y : Nat),
        sumBy (fun r => r.total) (decYearRows rows y) = 0 → yearConvRate rows y = none)
  ∧ (∀ (rows : List MeterRow) (d : Nat × Nat),
        sumBy (fun r => r.total) (monthRows rows d) = 0 → monthConvRate rows d = none)
  ∧ (∀ (rows : List MeterRow) (y : Nat) (g : String),
        sumBy (fun r => r.total) (guRows rows y g) = 0 → guConvRate rows y g = none)
  ∧ (∀ (rows : List MeterRow) (g : String) (y : Nat),
        sumBy (fun r => r.total) (decYearRows (regionRows rows g) y) = 0 →
        regionYearConvRate rows g y = none)
  ∧ (∀ loss pot : ℚ, ¬ pot > 0 → lossShare loss pot = 0) := by
  refine ⟨?_, ?_, ?_, ?_, ?_, ?_⟩
  · intro r h; simp [convRate, h]
  · intro rows y h; simp [yearConvRate, pandasDiv, h]
  · intro rows d h; simp [monthConvRate, pandasDiv, h]
  · intro rows y g h; simp [guConvRate, pandasDiv, h]
  · intro rows g y h; simp [regionYearConvRate, yearConvRate, pandasDiv, h]
  · intro loss pot h; simp [lossShare, h]

/-- C4 witness: the amended conventions at concrete inputs — the guarded
per-row rate and loss share give 0, the unguarded yearly rate gives `none`. -/
theorem C4_amended_ratio_conventions_witness :
    convRate z4 = 0 ∧ yearConvRate [z4] 2024 = none ∧ lossShare 5 0 = 0 :=
  ⟨C4_amended_ratio_conventions.1 z4 rfl,
   C4_amended_ratio_conventions.2.1 [z4] 2024 (by with_unfolding_all rfl),
   C4_amended_ratio_conventions.2.2.2.2.2 5 0 (by norm_num)⟩

theorem mergedSales_eq_zero (srows : List SalesRow) (y : Nat)
    (hc : (srows.map (fun s => s.year)).contains ((y : Nat) : Int) = false) :
    mergedSales srows y = (0, 0) := by
  unfold mergedSales
  rw [hc]
  by_cases he : srows.isEmpty <;> simp [he]

/-- C5: the yearly merge is a left join on the year key — the merged table
lists exactly the stock years (no year row dropped), each stock year `y`
appears as `mkYearRow ... y`, and when `y` is absent from the sales data
(in particular when the sales data is empty) its sales columns are 0. -/
theorem C5_left_join_completeness :
    ∀ (rows : List MeterRow) (srows : List SalesRow) (u : ℚ),
      ((mergedYearTable rows srows u).map (fun yr => yr.year) = stockYears rows)
    ∧ (∀ y, y ∈ stockYears rows →
          mkYearRow rows srows u y ∈ mergedYearTable rows srows u
        ∧ (mkYearRow rows srows u y).year = y
        ∧ ((srows.map (fun s => s.year)).contains ((y : Nat) : Int) = false →
            (mkYearRow rows srows u y).householdSales = 0
          ∧ (mkYearRow rows srows u y).totalSalesVol = 0)) := by
  intro rows srows u
  constructor
  · rw [mergedYearTable, List.map_map]
    have h : ((fun yr => yr.year) ∘ mkYearRow rows srows u) = id := funext (fun y => rfl)
    rw [h, List.map_id]
  · intro y hy
    refine ⟨List.mem_map_of_mem _ hy, rfl, ?_⟩
    intro hc
    have hz := mergedSales_eq_zero srows y hc
    constructor
    · show (mergedSales srows y).1 = 0
      rw [hz]
    · show (mergedSales srows y).2 = 0
      rw [hz]

/-- C5 witness: on `c1rows` (stock year 2015) with an empty sales set, the
year row is present in the merged table and its sales columns are 0. -/
theorem C5_left_join_completeness_witness :
    mkYearRow c1rows [] 5 2015 ∈ mergedYearTable c1rows [] 5
  ∧ (mkYearRow c1rows [] 5 2015).year = 2015
  ∧ ((([] : List SalesRow).map (fun s => s.year)).contains ((2015 : Nat) : Int) = false →
      (mkYearRow c1rows [] 5 2015).householdSales = 0
    ∧ (mkYearRow c1rows [] 5 2015).totalSalesVol = 0) :=
  (C5_left_join_completeness c1rows [] 5).2 2015 (by with_unfolding_all decide)

/-- C6: for every sales row the household total is the sum of the fixed
household category list times exactly 1000, likewise the other total, the
grand total is their sum, a category column absent from the input (lookup
`none`) contributes the default 0 instead of failing, and a present
parseable cell contributes its value. -/
theorem C6_sales_category_sums :
    ∀ (r : SalesRow),
      householdSalesTotal r = ((household_cols.map (colValue r)).sum) * 1000
    ∧ otherSalesTotal r = ((other_cols.map (colValue r)).sum) * 1000
    ∧ totalSales r = householdSalesTotal r + otherSalesTotal r
    ∧ (∀ c, r.cells.lookup c = none → colValue r c = 0)
    ∧ (∀ c v, r.cells.lookup c = some (some v) → colValue r c = v) := by
  intro r
  refine ⟨rfl, rfl, rfl, ?_, ?_⟩
  · intro c h; simp [colValue, h]
  · intro c v h; simp [colValue, h]

/-- C6 witness: on `s6` (only the cooking category present, 1234 thousand
m3) the household total is 1,234,000 m3, an absent category reads 0 and the
present one reads its value. -/
theorem C6_sales_category_sums_witness :
    householdSalesTotal s6 = 1234000
  ∧ colValue s6 "개별난방용" = 0
  ∧ colValue s6 "취사용" = 1234 :=
  ⟨((C6_sales_category_sums s6).1).trans (by with_unfolding_all rfl),
   (C6_sales_category_sums s6).2.2.2.1 "개별난방용" (by with_unfolding_all rfl),
   (C6_sales_category_sums s6).2.2.2.2 "취사용" 1234 (by with_unfolding_all rfl)⟩

/-- C7: the period cell is whitespace-stripped and a trailing `.0` removed
before the YYYYMM parse; every loaded row stems from a raw row whose period
parses (its parse giving the row date), rows that fail to parse — such as a
`Total` footer — are dropped without error, and the aggregate of the total
column over the loaded rows equals the sum over only the dated raw rows. -/
theorem C7_period_parse_and_drop :
    (∀ (t : RawTable) (l : LoadedTable), loadTable t = Except.ok l →
        (∀ r' ∈ l.rows, ∃ r, r ∈ t.rows ∧ parsePeriod r.period = some r'.date
            ∧ r' = toMeterRow r r'.date)
      ∧ sumBy (fun r => r.total) l.rows
          = sumBy (fun r => cleanCell r.total_cell)
              (t.rows.filter (fun r => (parsePeriod r.period).isSome)))
  ∧ parsePeriod "Total" = none
  ∧ parsePeriod " 201501.0" = some (2015, 1) := by
  refine ⟨?_, by with_unfolding_all rfl, by with_unfolding_all rfl⟩
  intro t l hok
  by_cases hP : t.hasPeriod
  · simp only [loadTable, hP, if_true, Except.ok.injEq] at hok
    constructor
    · intro r' hr'
      rw [← hok] at hr'
      simp only [List.mem_filterMap] at hr'
      obtain ⟨r, hrmem, hfr⟩ := hr'
      cases hp : parsePeriod r.period with
      | none => rw [hp] at hfr; simp at hfr
      | some ym =>
        rw [hp] at hfr
        simp only [Option.map_some'] at hfr
        have h2 : toMeterRow r ym = r' := Option.some.inj hfr
        have hdate : r'.date = ym := by rw [← h2]; rfl
        exact ⟨r, hrmem, by rw [hp, hdate], by rw [hdate, ← h2]⟩
    · rw [← hok]
      exact sumBy_total_filterMap t.rows
  · simp [loadTable, hP] at hok

/-- C7 witness: the raw table `t7` (one dated row, one `Total` footer) loads
to `l7`; the footer is dropped and the total-column aggregate over the
loaded rows equals the sum over the dated raw rows only. -/
theorem C7_period_parse_and_drop_witness :
    sumBy (fun r => r.total) l7.rows
      = sumBy (fun r => cleanCell r.total_cell)
          (t7.rows.filter (fun r => (parsePeriod r.period).isSome)) :=
  ((C7_period_parse_and_drop.1 t7 l7 (by with_unfolding_all rfl)).2)

/-- C8 counterexample: the claim says a missing expected column surfaces a
warning; but `load_data_final_v22` contains no warning call — on the table
`t8`, whose gas-range column is absent, the load succeeds with an EMPTY
warning list (the derived induction columns are indeed omitted). -/
theorem C8_counterexample_silent_missing_column :
    t8.hasGas = false ∧ loadTable t8 = Except.ok l8
  ∧ l8.warnings = [] ∧ l8.hasInduction = false :=
  ⟨rfl, by with_unfolding_all rfl, rfl, rfl⟩

/-- C8 amended: a missing count column is skipped silently — the load
succeeds with NO warning surfaced and the derived induction metrics are
omitted from the output (present exactly when both count columns are);
a missing period column instead aborts the load with a KeyError (line 49
accesses the never-created Date column); absent or unparseable values
inside a present numeric column default to 0. -/
theorem C8_amended_missing_column :
    (∀ (t : RawTable) (l : LoadedTable), loadTable t = Except.ok l →
        l.warnings = [] ∧ l.hasInduction = (t.hasTotal && t.hasGas))
  ∧ (∀ t : RawTable, t.hasPeriod = false → loadTable t = Except.error "KeyError: Date")
  ∧ cleanCell none = 0
  ∧ (∀ q : ℚ, cleanCell (some q) = q) := by
  refine ⟨?_, ?_, rfl, fun q => rfl⟩
  · intro t l hok
    by_cases hP : t.hasPeriod
    · simp only [loadTable, hP, if_true, Except.ok.injEq] at hok
      rw [← hok]
      exact ⟨rfl, rfl⟩
    · simp [loadTable, hP] at hok
  · intro t hP
    simp [loadTable, hP]

/-- C8 witness: the load of `t8` (gas column absent) discharges the
hypothesis — no warnings, induction columns absent. -/
theorem C8_amended_missing_column_witness :
    l8.warnings = [] ∧ l8.hasInduction = (t8.hasTotal && t8.hasGas) :=
  C8_amended_missing_column.1 t8 l8 (by with_unfolding_all rfl)

/-- C9 counterexample: the claim says a failure of EITHER fetch stops the
session with an error and no partial results; but with the primary fetch
succeeding (row `m9`) and the sales fetch failing, the session renders the
annual table (sales columns 0) with only a warning — it does not stop. -/
theorem C9_counterexample_sales_failure_renders :
    runSession (some [m9]) none 5 =
      SessionOutcome.rendered true
        [⟨2015, 100, 90, 10, some 10, 600, 0, 0, 600, 100, 600, 100⟩] := by
  with_unfolding_all rfl

/-- C9 amended: a primary fetch failure (empty loaded frame) stops the
session with a visible error and nothing rendered; a sales fetch failure
only sets the warning flag and the session renders the merged table with
both sales columns 0; there is no retry, backoff or timeout. -/
theorem C9_amended_fetch_failure :
    (∀ (salesFetch : Option (List SalesRow)) (u : ℚ),
        runSession none salesFetch u =
          SessionOutcome.stopped "Failed to load basic data. Please try again later.")
  ∧ (∀ (rows : List MeterRow) (u : ℚ), rows ≠ [] →
        runSession (some rows) none u = SessionOutcome.rendered true (mergedYearTable rows [] u))
  ∧ (∀ (rows : List MeterRow) (u : ℚ) (yr : YearRow), yr ∈ mergedYearTable rows [] u →
        yr.householdSales = 0 ∧ yr.totalSalesVol = 0) := by
  refine ⟨?_, ?_, ?_⟩
  · intro salesFetch u
    cases salesFetch <;> rfl
  · intro rows u h
    cases rows with
    | nil => exact absurd rfl h
    | cons a as => rfl
  · intro rows u yr hyr
    rcases List.mem_map.mp hyr with ⟨y', _, rfl⟩
    exact ⟨rfl, rfl⟩

/-- C9 witness: the rendered outcome and zero sales columns at scalar 7 on
the single-row table `[m9]` with a failed sales fetch. -/
theorem C9_amended_fetch_failure_witness :
    runSession (some [m9]) none 7 = SessionOutcome.rendered true (mergedYearTable [m9] [] 7)
  ∧ (mkYearRow [m9] [] 7 2015).householdSales = 0
  ∧ (mkYearRow [m9] [] 7 2015).totalSalesVol = 0 := by
  have h1 := C9_amended_fetch_failure.2.1 [m9] 7 (by simp)
  have hs : stockYears [m9] = [2015] := by with_unfolding_all rfl
  have hmem : mkYearRow [m9] [] 7 2015 ∈ mergedYearTable [m9] [] 7 := by
    unfold mergedYearTable
    rw [hs]
    simp
  have h2 := C9_amended_fetch_failure.2.2 [m9] 7 (mkYearRow [m9] [] 7 2015) hmem
  exact ⟨h1, h2.1, h2.2⟩

/-- C10: in the district drill-down, when the selected year has a row under
the active filter but no December row, the selection falls back to the rows
of the latest month present in that year, and neither the selected row set
nor the district aggregation is empty. -/
theorem C10_district_last_month_fallback :
    ∀ (rows : List MeterRow) (y : Nat),
      (∀ r ∈ rows, 1 ≤ r.date.2) →
      (∃ r ∈ rows, rowYear r = y) →
      (∀ r ∈ rows, rowYear r = y → r.date.2 ≠ 12) →
        guStockRows rows y =
          rows.filter (fun r => rowYear r == y && r.date.2 == lastMonthOfYear rows y)
      ∧ guStockRows rows y ≠ []
      ∧ districtStock rows y ≠ [] := by
  intro rows y hwf hex hno12
  obtain ⟨r0, hr0, hy0⟩ := hex
  have hdec : rows.filter (fun r => rowYear r == y && r.date.2 == 12) = [] := by
    rw [List.filter_eq_nil_iff]
    intro r hr
    simp only [Bool.and_eq_true, beq_iff_eq, not_and]
    intro hyr h12
    exact hno12 r hr hyr h12
  have h1 : guStockRows rows y =
      rows.filter (fun r => rowYear r == y && r.date.2 == lastMonthOfYear rows y) := by
    unfold guStockRows
    rw [hdec]
    rfl
  have hr0y : r0 ∈ yearRows rows y := by
    unfold yearRows
    rw [List.mem_filter]
    exact ⟨hr0, by simp [hy0]⟩
  have hmonths : r0.date.2 ∈ (yearRows rows y).map (fun r => r.date.2) :=
    List.mem_map_of_mem _ hr0y
  have hlast : lastMonthOfYear rows y ∈ (yearRows rows y).map (fun r => r.date.2) := by
    rcases foldl_max_eq_or_mem ((yearRows rows y).map (fun r => r.date.2)) 0 with h | h
    · exfalso
      have hle := le_foldl_max ((yearRows rows y).map (fun r => r.date.2)) 0 _ hmonths
      exact absurd (le_trans (hwf r0 hr0) (h ▸ hle)) (by norm_num)
    · exact h
  obtain ⟨r1, hr1mem, hr1m⟩ := List.mem_map.mp hlast
  have hr1 : r1 ∈ rows ∧ rowYear r1 = y := by
    unfold yearRows at hr1mem
    rw [List.mem_filter] at hr1mem
    exact ⟨hr1mem.1, by simpa using hr1mem.2⟩
  have hr1sel : r1 ∈ guStockRows rows y := by
    rw [h1, List.mem_filter]
    exact ⟨hr1.1, by simp [hr1.2, hr1m]⟩
  refine ⟨h1, ?_, ?_⟩
  · intro hnil
    rw [hnil] at hr1sel
    cases hr1sel
  · intro hnil
    unfold districtStock at hnil
    rw [List.map_eq_nil_iff, List.dedup_eq_nil, List.map_eq_nil_iff] at hnil
    rw [hnil] at hr1sel
    cases hr1sel

/-- C10 witness: the year 2024 of `c10rows` has rows for October and
November but none for December; the drill-down selects the November rows
and the district table is non-empty. -/
theorem C10_district_last_month_fallback_witness :
    guStockRows c10rows 2024 =
      c10rows.filter (fun r => rowYear r == 2024 && r.date.2 == lastMonthOfYear c10rows 2024)
  ∧ guStockRows c10rows 2024 ≠ []
  ∧ districtStock c10rows 2024 ≠ [] :=
  C10_district_last_month_fallback c10rows 2024
    (by with_unfolding_all decide)
    (by with_unfolding_all decide)
    (by with_unfolding_all decide)
